import Mathlib

/-!
Verification of the import/merge/library engine of the phone-ai repository.

The batch import orchestrator is `handleFilesSelect` in
`src/components/ImportRegexScriptModal.tsx`: it filters the selected files to
those whose MIME type includes "json", then loops over them sequentially,
awaiting `importRegexScriptFromJson` for each, aggregating counts, per-file
error messages, and success/failure file lists into a final `ImportResult`.
The per-source import call (and the merge/dedup engine and global-library
store behind it) live outside the provided sources, so the loop is embedded
with each file carrying the outcome its awaited call would produce, and the
merge engine is modelled from the specification where a claim needs it.
-/

namespace PhoneAI

/-- Per-source result returned by `importRegexScriptFromJson`
(`success`, `message`, `importedCount`, `skippedCount`, `errors`). -/
structure SourceResult where
  success : Bool
  message : String
  importedCount : Nat
  skippedCount : Nat
  errors : List String
deriving Repr, DecidableEq

/-- Outcome of processing one file inside the loop body of
`handleFilesSelect`: either the awaited chain
(`file.text()` / `JSON.parse` / `importRegexScriptFromJson`) threw with some
message, or it resolved to a `SourceResult`. -/
inductive FileOutcome where
  | thrown (msg : String)
  | returned (r : SourceResult)
deriving Repr, DecidableEq

/-- A selected file: its `name`, its MIME `type` string, and the outcome its
per-source processing would produce. -/
structure JFile where
  name : String
  mimeType : String
  outcome : FileOutcome
deriving Repr, DecidableEq

/-- Does the character list `p` occur at the start of `l`? -/
def beginsWith : List Char → List Char → Bool
  | [], _ => true
  | _ :: _, [] => false
  | p :: ps, c :: cs => p == c && beginsWith ps cs

/-- Does the character list `p` occur somewhere inside `l`? -/
def listContainsSeq (p : List Char) : List Char → Bool
  | [] => p.isEmpty
  | c :: cs => beginsWith p (c :: cs) || listContainsSeq p cs

/-- Embedding of `file.type.includes("json")` (substring test). -/
def typeIncludesJson (s : String) : Bool :=
  listContainsSeq "json".toList s.toList

/-- The aggregation state of the batch loop: `totalImported`, `totalSkipped`,
`allErrors`, `successfulFiles`, `failedFiles`. -/
structure BatchAcc where
  totalImported : Nat
  totalSkipped : Nat
  allErrors : List String
  successfulFiles : List String
  failedFiles : List String
deriving Repr, DecidableEq

/-- One iteration of the loop in `handleFilesSelect` (lines 155-189):
on a resolved successful result, add its counts, push the file name to
`successfulFiles`, and append its errors prefixed with the file name; on a
resolved failed result, push the name to `failedFiles` and append the
prefixed message followed by the prefixed errors; on a thrown error, push
the name to `failedFiles` and append a single "Failed to parse" message
prefixed with the file name. -/
def processFile (acc : BatchAcc) (f : JFile) : BatchAcc :=
  match f.outcome with
  | .returned r =>
    if r.success then
      { acc with
        totalImported := acc.totalImported + r.importedCount
        totalSkipped := acc.totalSkipped + r.skippedCount
        successfulFiles := acc.successfulFiles ++ [f.name]
        allErrors := acc.allErrors ++ r.errors.map (fun e => f.name ++ ": " ++ e) }
    else
      { acc with
        failedFiles := acc.failedFiles ++ [f.name]
        allErrors := acc.allErrors ++ [f.name ++ ": " ++ r.message]
          ++ r.errors.map (fun e => f.name ++ ": " ++ e) }
  | .thrown m =>
      { acc with
        failedFiles := acc.failedFiles ++ [f.name]
        allErrors := acc.allErrors ++ [f.name ++ ": Failed to parse - " ++ m] }

/-- The initial aggregation state of a batch. -/
def initAcc : BatchAcc := ⟨0, 0, [], [], []⟩

/-- The sequential loop of `handleFilesSelect` over the JSON files. -/
def runBatch (jsonFiles : List JFile) : BatchAcc :=
  jsonFiles.foldl processFile initAcc

/-- The final report shape (`ImportResult`): batch results carry
`successfulFiles`/`failedFiles`, single-source reports leave them absent. -/
structure ImportResult where
  success : Bool
  message : String
  importedCount : Nat
  skippedCount : Nat
  errors : List String
  successfulFiles : Option (List String)
  failedFiles : Option (List String)
deriving Repr, DecidableEq

/-- The summary message built at line 193 of the modal. -/
def finalMessage (total succeeded failed : Nat) : String :=
  "Processed " ++ toString total ++ " files: " ++ toString succeeded
    ++ " successful, " ++ toString failed ++ " failed"

/-- The JSON files of a selection: the binding
`const jsonFiles = files.filter(file => file.type.includes("json"))`
at line 134 of the modal. -/
def jsonOf (files : List JFile) : List JFile :=
  files.filter (fun f => typeIncludesJson f.mimeType)

/-- Embedding of `handleFilesSelect` (lines 133-226): filter to files whose
type includes "json"; if none remain, return early with no result; otherwise
run the sequential loop and assemble the final `ImportResult`. -/
def handleFilesSelect (files : List JFile) : Option ImportResult :=
  if (jsonOf files).length == 0 then none
  else
    some
      { success := decide (0 < (runBatch (jsonOf files)).successfulFiles.length)
        message := finalMessage (jsonOf files).length
          (runBatch (jsonOf files)).successfulFiles.length
          (runBatch (jsonOf files)).failedFiles.length
        importedCount := (runBatch (jsonOf files)).totalImported
        skippedCount := (runBatch (jsonOf files)).totalSkipped
        errors := (runBatch (jsonOf files)).allErrors
        successfulFiles := some (runBatch (jsonOf files)).successfulFiles
        failedFiles := some (runBatch (jsonOf files)).failedFiles }

/-! Closed forms for the loop, used to state the claims. -/

/-- Whether a source counts as successful in the loop: its call resolved and
the resolved result's `success` flag is `true`. -/
def sourceSucceeds (f : JFile) : Bool :=
  match f.outcome with
  | .returned r => r.success
  | .thrown _ => false

/-- The per-source `importedCount` a resolved call reports (0 if it threw). -/
def rawImported (f : JFile) : Nat :=
  match f.outcome with
  | .returned r => r.importedCount
  | .thrown _ => 0

/-- The per-source `skippedCount` a resolved call reports (0 if it threw). -/
def rawSkipped (f : JFile) : Nat :=
  match f.outcome with
  | .returned r => r.skippedCount
  | .thrown _ => 0

/-- What one source contributes to the batch `importedCount`. -/
def importedOf (f : JFile) : Nat :=
  match f.outcome with
  | .returned r => if r.success then r.importedCount else 0
  | .thrown _ => 0

/-- What one source contributes to the batch `skippedCount`. -/
def skippedOf (f : JFile) : Nat :=
  match f.outcome with
  | .returned r => if r.success then r.skippedCount else 0
  | .thrown _ => 0

/-- The error messages one source contributes to the batch `errors` list. -/
def fileErrors (f : JFile) : List String :=
  match f.outcome with
  | .returned r =>
    if r.success then r.errors.map (fun e => f.name ++ ": " ++ e)
    else (f.name ++ ": " ++ r.message)
      :: r.errors.map (fun e => f.name ++ ": " ++ e)
  | .thrown m => [f.name ++ ": Failed to parse - " ++ m]

/-- The remainder of the first error message recorded for a failed source,
after the `name ++ ": "` marker. -/
def errorTail (f : JFile) : String :=
  match f.outcome with
  | .returned r => r.message
  | .thrown m => "Failed to parse - " ++ m

/-- Names of the sources classified successful, in input order. -/
def succNames (files : List JFile) : List String :=
  (files.filter sourceSucceeds).map JFile.name

/-- Names of the sources classified failed, in input order. -/
def failNames (files : List JFile) : List String :=
  (files.filter (fun f => !sourceSucceeds f)).map JFile.name

/-- Batch error list: each source's error messages, in input order. -/
def batchErrors (files : List JFile) : List String :=
  (files.map fileErrors).flatten

/-- Batch imported total: the sum of the per-source contributions. -/
def batchImported (files : List JFile) : Nat :=
  (files.map importedOf).sum

/-- Batch skipped total: the sum of the per-source contributions. -/
def batchSkipped (files : List JFile) : Nat :=
  (files.map skippedOf).sum

/-! The merge/dedup engine and the global library store live outside the
provided sources; they are modelled from the specification. -/

/-- Modelled from the spec: a TransformScript entry — identity key, pattern,
replacement (the fields the dedup decision and the wire format require). -/
structure RegexScript where
  scriptKey : String
  pattern : String
  replacement : String
deriving Repr, DecidableEq

/-- The result shape of the merge engine: updated collection plus counts. -/
structure MergeOutcome where
  updated : List RegexScript
  importedCount : Nat
  skippedCount : Nat
deriving Repr, DecidableEq

/-- Modelled from the spec (4.2): one merge step — if the incoming entry's
identity key already exists in the collection built so far (the original
collection or an entry accepted earlier in this pass), skip it; otherwise
append it. -/
def mergeStep (st : MergeOutcome) (e : RegexScript) : MergeOutcome :=
  if st.updated.any (fun x => x.scriptKey == e.scriptKey) then
    { st with skippedCount := st.skippedCount + 1 }
  else
    { st with updated := st.updated ++ [e]
              importedCount := st.importedCount + 1 }

/-- Modelled from the spec (4.2): iterate the incoming entries in input
order over `mergeStep`, starting from the existing collection. -/
def mergeScripts (existing incoming : List RegexScript) : MergeOutcome :=
  incoming.foldl mergeStep ⟨existing, 0, 0⟩

/-- The identity keys of a collection. -/
def scriptKeys (l : List RegexScript) : List String :=
  l.map RegexScript.scriptKey

/-- A stored global library item: id, name, and its bundle of scripts. -/
structure GlobalRegexScriptItem where
  id : String
  name : String
  scripts : List RegexScript
deriving Repr, DecidableEq

/-- Modelled from the spec (4.4): `importFromGlobal` looks the item up by id
(`NotFoundError`, i.e. `none`, when absent), merges its stored bundle
against the target character's existing collection, and returns a
single-source result carrying the merge counts. -/
def importFromGlobalRegexScript (library : List GlobalRegexScriptItem)
    (existing : List RegexScript) (gid : String) : Option SourceResult :=
  match library.find? (fun it => it.id == gid) with
  | none => none
  | some it =>
    let m := mergeScripts existing it.scripts
    some
      { success := true
        message := "Imported " ++ toString m.importedCount ++ " regex scripts"
        importedCount := m.importedCount
        skippedCount := m.skippedCount
        errors := [] }

/-- Embedding of `handleImportFromGlobal` (modal lines 102-131): requires a
selected id; on a successful underlying result it builds the displayed
report with the result's message and `importedCount` but with
`skippedCount` fixed to 0, an empty `errors` list, and no
`successfulFiles`/`failedFiles`; a failed result or a thrown
`NotFoundError` produces no report. -/
def handleImportFromGlobal (library : List GlobalRegexScriptItem)
    (existing : List RegexScript) (selectedGlobalId : String) :
    Option ImportResult :=
  if selectedGlobalId == "" then none
  else
    match importFromGlobalRegexScript library existing selectedGlobalId with
    | none => none
    | some result =>
      if result.success then
        some
          { success := true
            message := result.message
            importedCount := result.importedCount
            skippedCount := 0
            errors := []
            successfulFiles := none
            failedFiles := none }
      else none

/-! Concrete fixtures used to instantiate the theorems. -/

/-- A JSON file whose import resolves successfully with two imports. -/
def okFile : JFile :=
  ⟨"a.json", "application/json", .returned ⟨true, "ok", 2, 1, []⟩⟩

/-- A JSON file whose import succeeds but imports nothing (all duplicates). -/
def dupFile : JFile :=
  ⟨"d.json", "application/json", .returned ⟨true, "ok", 0, 3, []⟩⟩

/-- A JSON file whose processing throws (e.g. malformed JSON). -/
def badFile : JFile :=
  ⟨"b.json", "application/json", .thrown "Unexpected token"⟩

/-- A JSON file whose import resolves with a failed result. -/
def failFile : JFile :=
  ⟨"c.json", "application/json",
    .returned ⟨false, "Invalid regex script format", 0, 0, ["missing scriptName"]⟩⟩

/-- A selected file whose MIME type is not JSON. -/
def textFile : JFile :=
  ⟨"notes.txt", "text/plain", .returned ⟨true, "ok", 5, 0, []⟩⟩

/-- A JSON file whose import resolves with a failed result that nonetheless
reports nonzero per-source counts. -/
def failRichFile : JFile :=
  ⟨"e.json", "application/json", .returned ⟨false, "Partial failure", 4, 2, []⟩⟩

/-- A four-file batch: one plain success, one thrown error, one success with
zero imports, one failed result. -/
def demoFiles : List JFile := [okFile, badFile, dupFile, failFile]

/-- The report `handleFilesSelect` produces for `demoFiles`. -/
def demoBatchResult : ImportResult :=
  { success := true
    message := "Processed 4 files: 2 successful, 2 failed"
    importedCount := 2
    skippedCount := 4
    errors := ["b.json: Failed to parse - Unexpected token",
      "c.json: Invalid regex script format", "c.json: missing scriptName"]
    successfulFiles := some ["a.json", "d.json"]
    failedFiles := some ["b.json", "c.json"] }

/-- A two-file batch: one success, one thrown error. -/
def pairFiles : List JFile := [okFile, badFile]

/-- The report `handleFilesSelect` produces for `pairFiles`. -/
def pairResult : ImportResult :=
  { success := true
    message := "Processed 2 files: 1 successful, 1 failed"
    importedCount := 2
    skippedCount := 1
    errors := ["b.json: Failed to parse - Unexpected token"]
    successfulFiles := some ["a.json"]
    failedFiles := some ["b.json"] }

/-- A two-file batch pairing a success and a rich failed result. -/
def mixedFiles : List JFile := [okFile, failRichFile]

/-- The report `handleFilesSelect` produces for `mixedFiles`. -/
def mixedResult : ImportResult :=
  { success := true
    message := "Processed 2 files: 1 successful, 1 failed"
    importedCount := 2
    skippedCount := 1
    errors := ["e.json: Partial failure"]
    successfulFiles := some ["a.json"]
    failedFiles := some ["e.json"] }

/-- A sample script with identity key "a". -/
def scrA : RegexScript := ⟨"a", "p1", "r1"⟩

/-- A sample script with identity key "b". -/
def scrB : RegexScript := ⟨"b", "p2", "r2"⟩

/-- A library holding one item whose bundle is `[scrA, scrB]`. -/
def demoLibrary : List GlobalRegexScriptItem :=
  [⟨"g1", "demo", [scrA, scrB]⟩]

/-- An existing collection already holding `scrA`. -/
def demoExisting : List RegexScript := [scrA]

theorem foldl_processFile (files : List JFile) (acc : BatchAcc) :
    files.foldl processFile acc =
      { totalImported := acc.totalImported + batchImported files
        totalSkipped := acc.totalSkipped + batchSkipped files
        allErrors := acc.allErrors ++ batchErrors files
        successfulFiles := acc.successfulFiles ++ succNames files
        failedFiles := acc.failedFiles ++ failNames files } := by
  induction files generalizing acc with
  | nil => simp [batchImported, batchSkipped, batchErrors, succNames, failNames]
  | cons f fs ih =>
    rw [List.foldl_cons, ih]
    rcases f with ⟨name, mimeType, outcome⟩
    rcases outcome with m | r
    · simp [processFile, batchImported, batchSkipped, batchErrors, succNames,
        failNames, sourceSucceeds, importedOf, skippedOf, fileErrors,
        List.append_assoc]
    · rcases r with ⟨success, message, ic, sc, errs⟩
      cases success <;>
        simp [processFile, batchImported, batchSkipped, batchErrors, succNames,
          failNames, sourceSucceeds, importedOf, skippedOf, fileErrors,
          List.append_assoc, Nat.add_assoc]

theorem runBatch_eq (files : List JFile) :
    runBatch files =
      { totalImported := batchImported files
        totalSkipped := batchSkipped files
        allErrors := batchErrors files
        successfulFiles := succNames files
        failedFiles := failNames files } := by
  simp [runBatch, initAcc, foldl_processFile]


theorem string_append_assoc (a b c : String) : a ++ b ++ c = a ++ (b ++ c) := by
  apply String.ext
  simp [String.data_append, List.append_assoc]

/-! Structural lemmas about the merge engine. -/

theorem any_key_eq (l : List RegexScript) (k : String) :
    (l.any (fun x => x.scriptKey == k)) = true ↔ k ∈ scriptKeys l := by
  simp [List.any_eq_true, scriptKeys, List.mem_map, beq_iff_eq]

theorem foldl_mergeStep_updated (incoming : List RegexScript)
    (st : MergeOutcome) :
    ∃ new, (incoming.foldl mergeStep st).updated = st.updated ++ new := by
  induction incoming generalizing st with
  | nil => exact ⟨[], by simp⟩
  | cons e es ih =>
    rw [List.foldl_cons]
    by_cases h : (st.updated.any (fun x => x.scriptKey == e.scriptKey)) = true
    · obtain ⟨new, hnew⟩ := ih { st with skippedCount := st.skippedCount + 1 }
      exact ⟨new, by simpa [mergeStep, h] using hnew⟩
    · obtain ⟨new, hnew⟩ := ih
        { st with updated := st.updated ++ [e]
                  importedCount := st.importedCount + 1 }
      refine ⟨e :: new, ?_⟩
      rw [mergeStep, if_neg h]
      simpa [List.append_assoc] using hnew

theorem foldl_mergeStep_keys_monotone (incoming : List RegexScript)
    (st : MergeOutcome) (k : String) (hk : k ∈ scriptKeys st.updated) :
    k ∈ scriptKeys (incoming.foldl mergeStep st).updated := by
  obtain ⟨new, hnew⟩ := foldl_mergeStep_updated incoming st
  rw [hnew, scriptKeys, List.map_append]
  exact List.mem_append_left _ hk

theorem mergeStep_key_mem (st : MergeOutcome) (e : RegexScript) :
    e.scriptKey ∈ scriptKeys (mergeStep st e).updated := by
  by_cases h : (st.updated.any (fun x => x.scriptKey == e.scriptKey)) = true
  · have hk : e.scriptKey ∈ scriptKeys st.updated := (any_key_eq _ _).mp h
    simpa [mergeStep, h] using hk
  · simp [mergeStep, h, scriptKeys]

theorem foldl_mergeStep_keys_present (incoming : List RegexScript)
    (st : MergeOutcome) (e : RegexScript) (he : e ∈ incoming) :
    e.scriptKey ∈ scriptKeys (incoming.foldl mergeStep st).updated := by
  induction incoming generalizing st with
  | nil => cases he
  | cons a as ih =>
    rw [List.foldl_cons]
    rcases List.mem_cons.mp he with rfl | hmem
    · exact foldl_mergeStep_keys_monotone as _ _ (mergeStep_key_mem st e)
    · exact ih _ hmem

theorem foldl_mergeStep_all_skipped (incoming : List RegexScript)
    (st : MergeOutcome)
    (h : ∀ e ∈ incoming, e.scriptKey ∈ scriptKeys st.updated) :
    incoming.foldl mergeStep st =
      { st with skippedCount := st.skippedCount + incoming.length } := by
  induction incoming generalizing st with
  | nil => simp
  | cons e es ih =>
    rw [List.foldl_cons]
    have hk : (st.updated.any (fun x => x.scriptKey == e.scriptKey)) = true :=
      (any_key_eq _ _).mpr (h e (List.mem_cons_self _ _))
    rw [mergeStep, if_pos hk]
    rw [ih { st with skippedCount := st.skippedCount + 1 }
      (fun x hx => h x (List.mem_cons_of_mem _ hx))]
    simp [Nat.add_assoc, Nat.add_comm 1 es.length]

theorem foldl_mergeStep_nodup (incoming : List RegexScript)
    (st : MergeOutcome) (h : (scriptKeys st.updated).Nodup) :
    (scriptKeys (incoming.foldl mergeStep st).updated).Nodup := by
  induction incoming generalizing st with
  | nil => simpa using h
  | cons e es ih =>
    rw [List.foldl_cons]
    by_cases hk : (st.updated.any (fun x => x.scriptKey == e.scriptKey)) = true
    · exact ih _ (by simpa [mergeStep, hk] using h)
    · refine ih _ ?_
      have hnotin : e.scriptKey ∉ scriptKeys st.updated :=
        fun hmem => hk ((any_key_eq _ _).mpr hmem)
      rw [mergeStep, if_neg hk]
      show (scriptKeys (st.updated ++ [e])).Nodup
      rw [scriptKeys, List.map_append]
      exact List.Nodup.append h (List.nodup_singleton _)
        (by simpa [List.disjoint_singleton, scriptKeys] using hnotin)

theorem foldl_mergeStep_length (incoming : List RegexScript)
    (st : MergeOutcome) :
    (incoming.foldl mergeStep st).updated.length + st.importedCount =
      (incoming.foldl mergeStep st).importedCount + st.updated.length := by
  induction incoming generalizing st with
  | nil => simp [Nat.add_comm]
  | cons e es ih =>
    rw [List.foldl_cons]
    by_cases hk : (st.updated.any (fun x => x.scriptKey == e.scriptKey)) = true
    · have := ih { st with skippedCount := st.skippedCount + 1 }
      simpa [mergeStep, hk] using this
    · have := ih
        { st with updated := st.updated ++ [e]
                  importedCount := st.importedCount + 1 }
      rw [mergeStep, if_neg hk]
      simp only [List.length_append, List.length_singleton] at this ⊢
      omega

/-! Helper lemmas about the batch orchestrator. -/

theorem handleFilesSelect_some_eq (files : List JFile) (r : ImportResult)
    (h : handleFilesSelect files = some r) :
    r = { success := decide (0 < (succNames (jsonOf files)).length)
          message := finalMessage (jsonOf files).length
            (succNames (jsonOf files)).length (failNames (jsonOf files)).length
          importedCount := batchImported (jsonOf files)
          skippedCount := batchSkipped (jsonOf files)
          errors := batchErrors (jsonOf files)
          successfulFiles := some (succNames (jsonOf files))
          failedFiles := some (failNames (jsonOf files)) } := by
  rw [handleFilesSelect] at h
  split at h
  · cases h
  · rw [runBatch_eq] at h
    exact (Option.some.inj h).symm

theorem importedOf_eq (f : JFile) :
    importedOf f = if sourceSucceeds f then rawImported f else 0 := by
  rcases f with ⟨n, t, o⟩
  cases o with
  | thrown m => simp [importedOf, sourceSucceeds]
  | returned r => cases hr : r.success <;>
      simp [importedOf, sourceSucceeds, rawImported, hr]

theorem skippedOf_eq (f : JFile) :
    skippedOf f = if sourceSucceeds f then rawSkipped f else 0 := by
  rcases f with ⟨n, t, o⟩
  cases o with
  | thrown m => simp [skippedOf, sourceSucceeds]
  | returned r => cases hr : r.success <;>
      simp [skippedOf, sourceSucceeds, rawSkipped, hr]

theorem batchImported_filter (l : List JFile) :
    batchImported l = ((l.filter sourceSucceeds).map rawImported).sum := by
  induction l with
  | nil => rfl
  | cons f fs ih =>
    simp only [batchImported] at ih
    by_cases hf : sourceSucceeds f = true
    · simp [batchImported, List.filter_cons, hf, importedOf_eq, ih]
    · simp only [Bool.not_eq_true] at hf
      simp [batchImported, List.filter_cons, hf, importedOf_eq, ih]

theorem batchSkipped_filter (l : List JFile) :
    batchSkipped l = ((l.filter sourceSucceeds).map rawSkipped).sum := by
  induction l with
  | nil => rfl
  | cons f fs ih =>
    simp only [batchSkipped] at ih
    by_cases hf : sourceSucceeds f = true
    · simp [batchSkipped, List.filter_cons, hf, skippedOf_eq, ih]
    · simp only [Bool.not_eq_true] at hf
      simp [batchSkipped, List.filter_cons, hf, skippedOf_eq, ih]

theorem succ_fail_length (l : List JFile) :
    (succNames l).length + (failNames l).length = l.length := by
  induction l with
  | nil => rfl
  | cons f fs ih =>
    by_cases hf : sourceSucceeds f = true <;>
      [skip; simp only [Bool.not_eq_true] at hf] <;>
      simp [succNames, failNames, List.filter_cons, hf] at * <;> omega

theorem succ_fail_count (l : List JFile) (s : String) :
    (succNames l).count s + (failNames l).count s =
      (l.map JFile.name).count s := by
  induction l with
  | nil => rfl
  | cons f fs ih =>
    by_cases hf : sourceSucceeds f = true <;>
      [skip; simp only [Bool.not_eq_true] at hf] <;>
      simp [succNames, failNames, List.filter_cons, hf, List.count_cons] at * <;>
      omega

/-! The claims. -/

/-- C1: a failure in any one source of a batch (a thrown parse error or a
failed result) is caught at the per-source boundary: that source's name is
appended to `failedFiles` at its input position, a message prefixed with the
source's file name is appended to `errors`, and every source before and
after it is still processed and aggregated — no single-source failure
aborts the batch. -/
theorem batch_isolates_source_failures (pre post : List JFile) (f : JFile)
    (hf : sourceSucceeds f = false) :
    (runBatch (pre ++ f :: post)).failedFiles
        = failNames pre ++ f.name :: failNames post
    ∧ (runBatch (pre ++ f :: post)).successfulFiles
        = succNames pre ++ succNames post
    ∧ (runBatch (pre ++ f :: post)).allErrors
        = batchErrors pre ++ (fileErrors f ++ batchErrors post)
    ∧ (fileErrors f).head? = some ((f.name ++ ": ") ++ errorTail f)
    ∧ (runBatch (pre ++ f :: post)).totalImported
        = batchImported pre + batchImported post := by
  rw [runBatch_eq]
  refine ⟨?_, ?_, ?_, ?_, ?_⟩
  · simp [failNames, List.filter_append, List.filter_cons, hf]
  · simp [succNames, List.filter_append, List.filter_cons, hf]
  · simp [batchErrors, List.map_append, List.flatten_append]
  · rcases f with ⟨n, t, o⟩
    cases o with
    | returned r =>
      cases hr : r.success
      · simp [fileErrors, errorTail, hr]
      · simp [sourceSucceeds, hr] at hf
    | thrown m =>
      simp only [fileErrors, errorTail, List.head?, Option.some.injEq]
      rw [string_append_assoc n ": Failed to parse - " m,
        string_append_assoc n ": " ("Failed to parse - " ++ m),
        ← string_append_assoc ": " "Failed to parse - " m]
      rfl
  · simp [batchImported, List.map_append, importedOf_eq, hf]

/-- Witness for C1: the thrown-error source `badFile` between `okFile` and
`failFile` is isolated and the other sources are still aggregated. -/
theorem batch_isolates_source_failures_witness :
    sourceSucceeds badFile = false
    ∧ ((runBatch ([okFile] ++ badFile :: [failFile])).failedFiles
          = failNames [okFile] ++ badFile.name :: failNames [failFile]
      ∧ (runBatch ([okFile] ++ badFile :: [failFile])).successfulFiles
          = succNames [okFile] ++ succNames [failFile]
      ∧ (runBatch ([okFile] ++ badFile :: [failFile])).allErrors
          = batchErrors [okFile] ++ (fileErrors badFile ++ batchErrors [failFile])
      ∧ (fileErrors badFile).head?
          = some ((badFile.name ++ ": ") ++ errorTail badFile)
      ∧ (runBatch ([okFile] ++ badFile :: [failFile])).totalImported
          = batchImported [okFile] + batchImported [failFile]) :=
  ⟨by decide, batch_isolates_source_failures [okFile] [failFile] badFile (by decide)⟩

/-- C2: a batch report's `success` is `true` exactly when at least one
source succeeded, and its `message` is the summary naming the total number
of JSON sources processed, the successful count, and the failed count. -/
theorem batch_success_iff_message_counts (files : List JFile)
    (r : ImportResult) (h : handleFilesSelect files = some r) :
    (r.success = true ↔ 0 < ((jsonOf files).filter sourceSucceeds).length)
    ∧ r.message = finalMessage (jsonOf files).length
        ((jsonOf files).filter sourceSucceeds).length
        ((jsonOf files).filter (fun f => !sourceSucceeds f)).length := by
  rw [handleFilesSelect_some_eq files r h]
  constructor
  · simp [succNames]
  · simp [succNames, failNames]

/-- Witness for C2 on the concrete batch `pairFiles`. -/
theorem batch_success_iff_message_counts_witness :
    handleFilesSelect pairFiles = some pairResult
    ∧ ((pairResult.success = true ↔
          0 < ((jsonOf pairFiles).filter sourceSucceeds).length)
      ∧ pairResult.message = finalMessage (jsonOf pairFiles).length
          ((jsonOf pairFiles).filter sourceSucceeds).length
          ((jsonOf pairFiles).filter (fun f => !sourceSucceeds f)).length) :=
  ⟨by decide, batch_success_iff_message_counts pairFiles pairResult (by decide)⟩

/-- C3 counterexample: an import-from-global that succeeds while the merge
skips one duplicate — the handler's report still says `skippedCount = 0`,
not the dedup skip count. -/
theorem importFromGlobal_report_zero_skipped :
    (handleImportFromGlobal demoLibrary demoExisting "g1").isSome = true
    ∧ (handleImportFromGlobal demoLibrary demoExisting "g1").map
        ImportResult.skippedCount
      ≠ some (mergeScripts demoExisting [scrA, scrB]).skippedCount := by
  decide

/-- C3 (amended): a successful import-from-global produces a single-source
report with no `successfulFiles`/`failedFiles` lists and no errors, whose
`importedCount` reflects the merge of the stored bundle against the target
collection; its `skippedCount` is always 0 — dedup skips are not surfaced
in the report. -/
theorem handleImportFromGlobal_report (library : List GlobalRegexScriptItem)
    (existing : List RegexScript) (gid : String)
    (item : GlobalRegexScriptItem) (hgid : gid ≠ "")
    (hfind : library.find? (fun it => it.id == gid) = some item) :
    handleImportFromGlobal library existing gid =
      some { success := true
             message := "Imported "
               ++ toString (mergeScripts existing item.scripts).importedCount
               ++ " regex scripts"
             importedCount := (mergeScripts existing item.scripts).importedCount
             skippedCount := 0
             errors := []
             successfulFiles := none
             failedFiles := none } := by
  have hg : (gid == "") = false := by
    simpa [beq_eq_false_iff_ne] using hgid
  simp [handleImportFromGlobal, importFromGlobalRegexScript, hfind, hg]

/-- Witness for C3 (amended) on the concrete library item "g1". -/
theorem handleImportFromGlobal_report_witness :
    handleImportFromGlobal demoLibrary demoExisting "g1" =
      some ⟨true, "Imported 1 regex scripts", 1, 0, [], none, none⟩ := by
  have h := handleImportFromGlobal_report demoLibrary demoExisting "g1"
    ⟨"g1", "demo", [scrA, scrB]⟩ (by decide) (by decide)
  rw [h]
  decide

/-- C4: the batch `importedCount` is the sum of the per-source
`importedCount` values of the sources that succeeded, and likewise for
`skippedCount`; a failed source contributes nothing to either total. -/
theorem batch_counts_sum_successful (files : List JFile) (r : ImportResult)
    (h : handleFilesSelect files = some r) :
    r.importedCount
        = (((jsonOf files).filter sourceSucceeds).map rawImported).sum
    ∧ r.skippedCount
        = (((jsonOf files).filter sourceSucceeds).map rawSkipped).sum := by
  rw [handleFilesSelect_some_eq files r h]
  exact ⟨batchImported_filter _, batchSkipped_filter _⟩

/-- Witness for C4: in `mixedFiles` the failed source reports per-source
counts 4/2 yet contributes nothing to the batch totals 2/1. -/
theorem batch_counts_sum_successful_witness :
    handleFilesSelect mixedFiles = some mixedResult
    ∧ (mixedResult.importedCount
          = (((jsonOf mixedFiles).filter sourceSucceeds).map rawImported).sum
      ∧ mixedResult.skippedCount
          = (((jsonOf mixedFiles).filter sourceSucceeds).map rawSkipped).sum) :=
  ⟨by decide, batch_counts_sum_successful mixedFiles mixedResult (by decide)⟩

/-- C5: merging never overwrites: the existing collection stays at the
front of the updated one unchanged, the updated size is the existing size
plus `importedCount`, identity keys stay unique, and re-merging the same
bundle yields `importedCount = 0` and `skippedCount = N`. -/
theorem merge_never_overwrites_idempotent (existing bundle : List RegexScript)
    (h : (scriptKeys existing).Nodup) :
    (mergeScripts existing bundle).updated.take existing.length = existing
    ∧ (mergeScripts existing bundle).updated.length
        = existing.length + (mergeScripts existing bundle).importedCount
    ∧ (scriptKeys (mergeScripts existing bundle).updated).Nodup
    ∧ mergeScripts (mergeScripts existing bundle).updated bundle
        = { updated := (mergeScripts existing bundle).updated
            importedCount := 0
            skippedCount := bundle.length } := by
  refine ⟨?_, ?_, ?_, ?_⟩
  · obtain ⟨new, hnew⟩ := foldl_mergeStep_updated bundle ⟨existing, 0, 0⟩
    rw [mergeScripts, hnew]
    simp [List.take_left]
  · have hl := foldl_mergeStep_length bundle ⟨existing, 0, 0⟩
    simp only [mergeScripts]
    simp only at hl
    omega
  · exact foldl_mergeStep_nodup bundle ⟨existing, 0, 0⟩ (by simpa using h)
  · have hall : ∀ e ∈ bundle,
        e.scriptKey ∈ scriptKeys (mergeScripts existing bundle).updated :=
      fun e he => foldl_mergeStep_keys_present bundle ⟨existing, 0, 0⟩ e he
    have hs := foldl_mergeStep_all_skipped bundle
      ⟨(mergeScripts existing bundle).updated, 0, 0⟩ hall
    simpa [mergeScripts] using hs

/-- Witness for C5 on existing `[scrA]` and bundle `[scrA, scrB]`. -/
theorem merge_never_overwrites_idempotent_witness :
    (scriptKeys demoExisting).Nodup
    ∧ ((mergeScripts demoExisting [scrA, scrB]).updated.take
          demoExisting.length = demoExisting
      ∧ (mergeScripts demoExisting [scrA, scrB]).updated.length
          = demoExisting.length
            + (mergeScripts demoExisting [scrA, scrB]).importedCount
      ∧ (scriptKeys (mergeScripts demoExisting [scrA, scrB]).updated).Nodup
      ∧ mergeScripts (mergeScripts demoExisting [scrA, scrB]).updated
            [scrA, scrB]
          = { updated := (mergeScripts demoExisting [scrA, scrB]).updated
              importedCount := 0
              skippedCount := [scrA, scrB].length }) :=
  ⟨by decide,
    merge_never_overwrites_idempotent demoExisting [scrA, scrB] (by decide)⟩

/-- C6: a source is listed in `successfulFiles` exactly when its per-source
result resolved with `success = true` — the classification reads only the
success flag, never the counts, so a source whose imports were all
duplicates is still listed successful. -/
theorem success_classification_by_flag (files : List JFile) :
    (runBatch files).successfulFiles
        = (files.filter sourceSucceeds).map JFile.name
    ∧ (runBatch files).failedFiles
        = (files.filter (fun f => !sourceSucceeds f)).map JFile.name := by
  rw [runBatch_eq]
  exact ⟨rfl, rfl⟩

/-- C7: with at least one JSON file selected, the batch never surfaces a
thrown failure: it always completes with a report that carries both file
lists (counts and errors are fields of every report). -/
theorem batch_always_reports (files : List JFile)
    (h : (jsonOf files).length ≠ 0) :
    (handleFilesSelect files).isSome = true
    ∧ (handleFilesSelect files).map
        (fun r => r.successfulFiles.isSome && r.failedFiles.isSome)
      = some true := by
  have hc : ((jsonOf files).length == 0) = false := by
    simpa [beq_eq_false_iff_ne] using h
  simp [handleFilesSelect, hc]

/-- Witness for C7 over a batch whose every source fails. -/
theorem batch_always_reports_witness :
    (jsonOf [badFile, failFile]).length ≠ 0
    ∧ ((handleFilesSelect [badFile, failFile]).isSome = true
      ∧ (handleFilesSelect [badFile, failFile]).map
          (fun r => r.successfulFiles.isSome && r.failedFiles.isSome)
        = some true) :=
  ⟨by decide, batch_always_reports [badFile, failFile] (by decide)⟩

/-- C8: the sequential loop aggregates in input order: the report's
`successfulFiles`, `failedFiles`, `errors` and counts equal the
order-preserving closed forms over the JSON files. -/
theorem batch_order_preserving (files : List JFile) (r : ImportResult)
    (h : handleFilesSelect files = some r) :
    r.successfulFiles = some (succNames (jsonOf files))
    ∧ r.failedFiles = some (failNames (jsonOf files))
    ∧ r.errors = ((jsonOf files).map fileErrors).flatten
    ∧ r.importedCount = batchImported (jsonOf files)
    ∧ r.skippedCount = batchSkipped (jsonOf files) := by
  rw [handleFilesSelect_some_eq files r h]
  exact ⟨rfl, rfl, rfl, rfl, rfl⟩

/-- Witness for C8 on the four-file batch `demoFiles`. -/
theorem batch_order_preserving_witness :
    handleFilesSelect demoFiles = some demoBatchResult
    ∧ (demoBatchResult.successfulFiles = some (succNames (jsonOf demoFiles))
      ∧ demoBatchResult.failedFiles = some (failNames (jsonOf demoFiles))
      ∧ demoBatchResult.errors = ((jsonOf demoFiles).map fileErrors).flatten
      ∧ demoBatchResult.importedCount = batchImported (jsonOf demoFiles)
      ∧ demoBatchResult.skippedCount = batchSkipped (jsonOf demoFiles)) :=
  ⟨by decide, batch_order_preserving demoFiles demoBatchResult (by decide)⟩

/-- C9: in every batch report, each processed JSON file lands in exactly
one of the two file lists: the list lengths sum to the number of JSON
files, and per name the two occurrence counts sum to the name's occurrence
count among the JSON files. -/
theorem batch_partition_files (files : List JFile) (r : ImportResult)
    (h : handleFilesSelect files = some r) :
    (r.successfulFiles.getD []).length + (r.failedFiles.getD []).length
        = (jsonOf files).length
    ∧ ∀ s : String,
        (r.successfulFiles.getD []).count s + (r.failedFiles.getD []).count s
          = ((jsonOf files).map JFile.name).count s := by
  rw [handleFilesSelect_some_eq files r h]
  refine ⟨?_, fun s => ?_⟩
  · simpa using succ_fail_length (jsonOf files)
  · simpa using succ_fail_count (jsonOf files) s

/-- Witness for C9 on the concrete batch `pairFiles`. -/
theorem batch_partition_files_witness :
    handleFilesSelect pairFiles = some pairResult
    ∧ (pairResult.successfulFiles.getD []).length
        + (pairResult.failedFiles.getD []).length = (jsonOf pairFiles).length
    ∧ (pairResult.successfulFiles.getD []).count "a.json"
        + (pairResult.failedFiles.getD []).count "a.json"
      = ((jsonOf pairFiles).map JFile.name).count "a.json" :=
  ⟨by decide, (batch_partition_files pairFiles pairResult (by decide)).1,
    (batch_partition_files pairFiles pairResult (by decide)).2 "a.json"⟩

/-- C10: files whose MIME type does not include "json" are filtered out
before any processing — the batch result is a function of the JSON files
alone — and when no JSON file is selected the batch returns early with no
`ImportResult` at all. -/
theorem nonjson_files_excluded (files : List JFile) :
    handleFilesSelect files = handleFilesSelect (jsonOf files)
    ∧ ((jsonOf files).length = 0 → handleFilesSelect files = none) := by
  constructor
  · have hj : jsonOf (jsonOf files) = jsonOf files := by
      simp [jsonOf, List.filter_filter]
    simp [handleFilesSelect, hj]
  · intro h0
    simp [handleFilesSelect, h0]

/-- Witness for C10: a selection holding only a non-JSON file produces no
report. -/
theorem nonjson_files_excluded_witness :
    (jsonOf [textFile]).length = 0 ∧ handleFilesSelect [textFile] = none :=
  ⟨by decide, (nonjson_files_excluded [textFile]).2 (by decide)⟩

end PhoneAI
